import Mathlib

/-!
A shallow embedding of the resilient HTTP request layer of the
`plugin-chutes` repository, translated from `src/common/api-utils.ts`
(the timeout wrapper `withTimeout`, the retry engine `withRetry`, the
executor `fetchWithRetry`, and `validateResponseData`) and from the
client module (the `makeRequest` helper of `ChutesClient` and
`createRateLimiter`).  Asynchronous behaviour is embedded by making the
environment (the outcome of each fetch attempt, the wall clock, the
jitter draws) an explicit parameter; machine numbers of the source are
modelled as `Nat`/`Int`/`ℚ`.  The theorems at the end of the file settle
the specification's claims against these definitions.
-/

namespace Chutes

/-- A structural model of the JavaScript JSON-like values that flow
through the request layer (parsed bodies, error details, defaults). -/
inductive Json where
  | null
  | bool (b : Bool)
  | num (q : ℚ)
  | str (s : String)
  | arr (elems : List Json)
  | obj (fields : List (String × Json))

/-- JavaScript truthiness of a `Json` value (`undefined`/`null`, `false`,
`0` and `""` are falsy; every array and object is truthy). -/
def truthy : Json → Bool
  | .null => false
  | .bool b => b
  | .num q => q != 0
  | .str s => s != ""
  | .arr _ => true
  | .obj _ => true

mutual

/-- JavaScript string conversion of a `Json` value, used where the source
interpolates a decoded value into a message. -/
def jsToString : Json → String
  | .null => "null"
  | .bool b => cond b "true" "false"
  | .num q => toString q
  | .str s => s
  | .obj _ => "[object Object]"
  | .arr elems => jsListToString elems

/-- Array-to-string conversion: elements joined by commas. -/
def jsListToString : List Json → String
  | [] => ""
  | [x] => jsToString x
  | x :: y :: xs => jsToString x ++ "," ++ jsListToString (y :: xs)

end

/-- Reading a digit string left to right with an accumulator; `none` on
the first non-digit character. -/
def charsToNat : List Char → Nat → Option Nat
  | [], acc => some acc
  | c :: cs, acc =>
      if c.isDigit then charsToNat cs (acc * 10 + (c.toNat - 48)) else none

/-- The numeric value of a non-empty all-digit key, `none` otherwise. -/
def strToIndex (key : String) : Option Nat :=
  match key.data with
  | [] => none
  | c :: cs => charsToNat (c :: cs) 0

/-- Property access `value[key]`: object fields by name, array elements by
a canonical numeric string; every other base value yields `undefined`. -/
def jsGet : Json → String → Option Json
  | .obj fields, key => fields.lookup key
  | .arr elems, key =>
      match strToIndex key with
      | some n => if toString n = key then elems[n]? else none
      | none => none
  | _, _ => none

/-- The guard `!data || typeof data !== 'object'` of
`validateResponseData` rejects exactly the values of this predicate's
complement: on `Json` values, only arrays and objects are truthy with
`typeof` equal to `'object'` (`null` has `typeof 'object'` but is falsy). -/
def isObjectLike : Json → Bool
  | .arr _ => true
  | .obj _ => true
  | _ => false

/-- The field list an object spread `{...value}` contributes: an object's
own fields, an array's index properties. -/
def jsFields : Json → List (String × Json)
  | .obj fields => fields
  | .arr elems => elems.enum.map (fun p => (toString p.1, p.2))
  | _ => []

/-- Assigning one field during a spread: overwrite an existing binding in
place, otherwise append the new binding (JavaScript key order). -/
def setField (fields : List (String × Json)) (key : String) (v : Json) :
    List (String × Json) :=
  if fields.any (fun p => p.1 = key) then
    fields.map (fun p => if p.1 = key then (key, v) else p)
  else fields ++ [(key, v)]

/-- The object spread `{...base, ...override}`: `override`'s fields win
over `base`'s, key order follows JavaScript semantics. -/
def spreadMerge (base override : List (String × Json)) :
    List (String × Json) :=
  override.foldl (fun acc p => setField acc p.1 p.2) base

/-- `validateResponseData(data, requiredKeys, defaultValues)` from
`api-utils.ts` lines 403-421: reject non-objects, reject on the first
required key that is `undefined`, otherwise return
`{ ...defaultValues, ...data }`.  Thrown `Error`s are modelled as
`Except.error` carrying the message. -/
def validateResponseData (data : Json) (requiredKeys : List String)
    (defaultValues : List (String × Json)) : Except String Json :=
  if isObjectLike data then
    match requiredKeys.find? (fun key => (jsGet data key).isNone) with
    | some key => .error ("Missing required field in API response: " ++ key)
    | none => .ok (Json.obj (spreadMerge defaultValues (jsFields data)))
  else .error "Invalid API response: expected an object"

/-- The exceptions the request layer can raise: the two error classes of
`api-utils.ts` (`ApiResponseError`, `ApiTimeoutError`) and a catch-all
for any other thrown value. -/
inductive JsErr where
  | apiResponseError (message : String) (status : Option Nat)
      (endpoint : String) (responseBody : Option Json)
  | apiTimeoutError (message : String)
  | otherError (message : String)

/-- The message built by `withTimeout` when the deadline fires. -/
def timeoutMessage (operationName : String) (timeoutMs : Nat) : String :=
  "Operation \"" ++ operationName ++ "\" timed out after " ++
    toString timeoutMs ++ "ms"

/-- One scheduled `setTimeout` callback: when it would fire, and when (if
ever) `clearTimeout` was called on it. -/
structure TimerRec where
  fireAt : Nat
  clearedAt : Option Nat

/-- A timer callback still scheduled at time `t`: neither cleared nor
already fired. -/
def TimerRec.pendingAt (timer : TimerRec) (t : Nat) : Bool :=
  timer.clearedAt.isNone && decide (t < timer.fireAt)

/-- The observable outcome of one `withTimeout` call: how the race
settled, when, and the state of the two timers it created. -/
structure TimeoutRun (α : Type) where
  result : Except JsErr α
  settledAt : Nat
  abortTimer : TimerRec
  rejectTimer : TimerRec

/-- `withTimeout` from `api-utils.ts` lines 85-115, run against an
operation whose behaviour is `opSettle` (`some (t, r)` when the operation
settles with `r` at time `t` counted from the call, `none` when it never
settles).  The wrapper creates an abort timer and, inside the timeout
promise, a rejection timer, both due at `timeoutMs`; the race settles
with the operation's outcome if it arrives strictly first, otherwise
rejects with `ApiTimeoutError` at the deadline.  The `finally` clause
clears only `timeoutId` (the abort timer); the rejection timer is never
cleared. -/
def withTimeout {α : Type} (opSettle : Option (Nat × Except JsErr α))
    (timeoutMs : Nat) (operationName : String) : TimeoutRun α :=
  match opSettle with
  | some (t, r) =>
      if t < timeoutMs then
        { result := r, settledAt := t
          abortTimer := { fireAt := timeoutMs, clearedAt := some t }
          rejectTimer := { fireAt := timeoutMs, clearedAt := none } }
      else
        { result := .error (.apiTimeoutError (timeoutMessage operationName timeoutMs))
          settledAt := timeoutMs
          abortTimer := { fireAt := timeoutMs, clearedAt := some timeoutMs }
          rejectTimer := { fireAt := timeoutMs, clearedAt := none } }
  | none =>
      { result := .error (.apiTimeoutError (timeoutMessage operationName timeoutMs))
        settledAt := timeoutMs
        abortTimer := { fireAt := timeoutMs, clearedAt := some timeoutMs }
        rejectTimer := { fireAt := timeoutMs, clearedAt := none } }

/-- The no-retry test of `withRetry` (`api-utils.ts` lines 157-163): an
`ApiResponseError` whose (truthy) status lies in `[400, 500)` and is
neither 408 nor 429 is rethrown instead of retried.  A status of 0 is
falsy in the source and is likewise retryable here. -/
def isNonRetryable : JsErr → Bool
  | .apiResponseError _ (some status) _ _ =>
      decide (400 ≤ status ∧ status < 500 ∧ status ≠ 408 ∧ status ≠ 429)
  | _ => false

/-- What one `withRetry` call did: the value returned or error rethrown,
how many times the attempt function ran, and the backoff delays waited. -/
structure RetryResult (α : Type) where
  outcome : Except JsErr α
  attempts : Nat
  delays : List ℚ

/-- The backoff delay computed after attempt `failedAttempt` fails
(`api-utils.ts` line 166): there `retryCount` has just been incremented
to `failedAttempt + 1`, so the factor is
`2 ^ (retryCount - 1) = 2 ^ failedAttempt`, scaled by `0.8 + 0.4·random`
with `jitter failedAttempt` standing for that `Math.random()` draw. -/
def backoffDelay (retryDelay : ℚ) (jitter : Nat → ℚ) (failedAttempt : Nat) : ℚ :=
  retryDelay * 2 ^ failedAttempt * (4/5 + jitter failedAttempt * (2/5))

/-- The `while (retryCount <= maxRetries)` loop of `withRetry`
(`api-utils.ts` lines 134-177), over the list of attempt indices still
allowed.  On success the result is returned at once; on failure with no
attempt left the error is rethrown (the `retryCount > maxRetries` break
followed by `throw lastError`); a non-retryable `ApiResponseError` is
rethrown immediately; otherwise the loop waits the backoff delay and
retries with the next index. -/
def withRetryGo {α : Type} (fn : Nat → Except JsErr α) (retryDelay : ℚ)
    (jitter : Nat → ℚ) : List Nat → RetryResult α
  | [] => { outcome := .error (.otherError "unreachable: no attempt allowed")
            attempts := 0, delays := [] }
  | i :: rest =>
    match fn i with
    | .ok v => { outcome := .ok v, attempts := 1, delays := [] }
    | .error e =>
      match rest with
      | [] => { outcome := .error e, attempts := 1, delays := [] }
      | _ :: _ =>
        if isNonRetryable e then
          { outcome := .error e, attempts := 1, delays := [] }
        else
          let next := withRetryGo fn retryDelay jitter rest
          { outcome := next.outcome, attempts := next.attempts + 1
            delays := backoffDelay retryDelay jitter i :: next.delays }

/-- `withRetry(fn, options)`: attempts are numbered `0, …, maxRetries`,
so every run performs between 1 and `maxRetries + 1` invocations of the
attempt function.  `fn i` is the settle of
`withTimeout(signal => fn(i, signal), options.timeout, …)` on attempt
`i`: an `Except.error` covers both a rejection of the attempt itself and
the deadline rejection of the race. -/
def withRetry {α : Type} (fn : Nat → Except JsErr α) (maxRetries : Nat)
    (retryDelay : ℚ) (jitter : Nat → ℚ) : RetryResult α :=
  withRetryGo fn retryDelay jitter (List.range' 0 (maxRetries + 1))

/-- The token bucket state closed over by `createRateLimiter`
(`utils.ts` lines 62-86): the current token count and the time of the
last refill. -/
structure RLState where
  tokens : Int
  lastRefill : Int

/-- `createRateLimiter(limit, timeWindow)` initialises the bucket full,
with `lastRefill` set to the creation time `t0`. -/
def createRateLimiter (limit : Int) (t0 : Int) : RLState :=
  { tokens := limit, lastRefill := t0 }

/-- The refill phase of `checkLimit`: when time has passed, add
`floor(timePassed / timeWindow) * limit` tokens, capped at `limit`, and
stamp `lastRefill` with the current time. -/
def rlRefill (limit timeWindow : Int) (s : RLState) (now : Int) : RLState :=
  let timePassed := now - s.lastRefill
  if 0 < timePassed then
    { tokens := min limit (s.tokens + timePassed / timeWindow * limit)
      lastRefill := now }
  else s

/-- `checkLimit()` called at time `now`: refill, then consume one token
and return `true` when one is available, else return `false` leaving the
refilled state untouched. -/
def checkLimit (limit timeWindow : Int) (s : RLState) (now : Int) :
    Bool × RLState :=
  let s1 := rlRefill limit timeWindow s now
  if 0 < s1.tokens then (true, { tokens := s1.tokens - 1, lastRefill := s1.lastRefill })
  else (false, s1)

/-- A whole sequence of `checkLimit` calls at the given times. -/
def rlRun (limit timeWindow : Int) (s : RLState) (times : List Int) : RLState :=
  times.foldl (fun st t => (checkLimit limit timeWindow st t).2) s

/-- An HTTP response as observed by one attempt of `fetchWithRetry`:
status line, `content-type` header, and the outcomes of `response.json()`
and `response.text()` (`Except.error` when the read or parse rejects,
carrying that rejection's message). -/
structure HttpResp where
  status : Nat
  statusText : String
  contentType : Option String
  jsonBody : Except String Json
  textBody : Except String String

/-- The possible outcomes of the `fetch` call underlying one attempt:
`timesOutRaw` is an attempt that does not settle by the deadline, so the
timeout promise's `ApiTimeoutError` rejection wins the race inside
`withTimeout`; `aborted` is the deadline abort observed by `fetch` as a
`DOMException` named `AbortError` before the rejection timer fires;
`networkFailure` is a transport-level `TypeError` whose message mentions
`fetch`; `jsThrow` is any other exception; `httpResponse` is a settled
HTTP response. -/
inductive FetchOut where
  | timesOutRaw
  | aborted
  | networkFailure (message : String)
  | jsThrow (message : String)
  | httpResponse (resp : HttpResp)

/-- The per-request knobs of `RequestOptions` consumed by
`fetchWithRetry` (`timeout`, `retries`, `retryDelay`,
`fallbackEndpoints`, `validateStatus`). -/
structure RequestOptionsM where
  timeout : Nat
  retries : Nat
  retryDelay : ℚ
  fallbackEndpoints : List String
  validateStatus : Nat → Bool

/-- The environment a run of `fetchWithRetry` executes in: what the fetch
of attempt `i` does, and the elapsed wall-clock milliseconds
(`Date.now() - startTime`) observed when attempt `i` builds its result. -/
structure FetchEnv where
  fetchAt : Nat → FetchOut
  elapsedAt : Nat → Nat

/-- The URL attempt `retry` targets (`api-utils.ts` lines 196-213):
attempt 0 keeps the primary `url`; a later attempt with a non-empty
fallback list indexes `[url, ...fallbackEndpoints]` at
`retry % (1 + fallbackEndpoints.length)`.  The index is always in range,
so the `getD` default is never consulted. -/
def endpointFor (url : String) (fallbackEndpoints : List String) (retry : Nat) : String :=
  if 0 < retry ∧ 0 < fallbackEndpoints.length then
    (url :: fallbackEndpoints).getD (retry % (url :: fallbackEndpoints).length) url
  else url

/-- The `error` member of a failure `ApiResponse`. -/
structure ErrorInfo where
  message : String
  code : Option String
  status : Option Nat
  details : Option Json

/-- The `metrics` member stamped on every result of an attempt. -/
structure MetricsInfo where
  responseTime : Nat
  retries : Nat
  endpoint : String

/-- The `ApiResponse<T>` envelope of `api-utils.ts`, with payloads as
`Json` (a plain-text body is a `Json.str`). -/
structure ApiResponse where
  success : Bool
  data : Option Json
  error : Option ErrorInfo
  metrics : Option MetricsInfo

/-- The success literal built at `api-utils.ts` lines 274-282. -/
def successResponse (data : Json) (elapsed retry : Nat) (endpoint : String) :
    ApiResponse :=
  { success := true, data := some data, error := none
    metrics := some { responseTime := elapsed, retries := retry, endpoint := endpoint } }

/-- The failure literals built in the catch block at `api-utils.ts`
lines 284-364 (each call site fills exactly the fields its branch sets). -/
def failureResponse (message : String) (code : Option String)
    (status : Option Nat) (details : Option Json) (elapsed retry : Nat)
    (endpoint : String) : ApiResponse :=
  { success := false, data := none
    error := some { message := message, code := code, status := status, details := details }
    metrics := some { responseTime := elapsed, retries := retry, endpoint := endpoint } }

/-- Whether `pattern` starts the character list `l`. -/
def charsStartWith : List Char → List Char → Bool
  | [], _ => true
  | _ :: _, [] => false
  | a :: as, b :: bs => a == b && charsStartWith as bs

/-- Whether `pattern` occurs as a contiguous run inside `l`. -/
def charsContain (pattern : List Char) : List Char → Bool
  | [] => charsStartWith pattern []
  | b :: bs => charsStartWith pattern (b :: bs) || charsContain pattern bs

/-- `contentType?.includes('application/json')` (an absent header is
`undefined`, which is falsy). -/
def ctIncludesJson : Option String → Bool
  | some s => charsContain "application/json".data s.data
  | none => false

/-- The generic `HTTP Error <status>: <statusText>` message. -/
def httpErrorFallback (resp : HttpResp) : String :=
  "HTTP Error " ++ toString resp.status ++ ": " ++ resp.statusText

/-- Decoding an invalid-status response (`api-utils.ts` lines 238-258):
try `response.json()` and use its truthy `message` member, else fall back
to `response.text()`, else to the generic message.  Returns the message
together with the `errorDetails` value carried into `ApiResponseError`.
A body that parses to `null` leaves `errorDetails = null` and then
throws on the `.message` access, falling through to the text branch. -/
def responseErrorParts (resp : HttpResp) : String × Option Json :=
  match resp.jsonBody with
  | .ok Json.null =>
      ((match resp.textBody with
        | .ok t => t
        | .error _ => httpErrorFallback resp), some Json.null)
  | .ok j =>
      ((match jsGet j "message" with
        | some v => if truthy v then jsToString v else httpErrorFallback resp
        | none => httpErrorFallback resp), some j)
  | .error _ =>
      ((match resp.textBody with
        | .ok t => t
        | .error _ => httpErrorFallback resp), none)

/-- One attempt of `fetchWithRetry` (`api-utils.ts` lines 205-364),
composed with the `withTimeout` wrapper the retry engine puts around it.
Every settled fetch outcome is converted by the attempt's own
`try`/`catch` into a resolved `ApiResponse` (success or failure); only an
attempt that outruns its deadline surfaces to the retry engine as an
`Except.error`, carrying `withTimeout`'s `ApiTimeoutError` with the
attempt label built at line 140.  The source also sets `result._retries`
on resolved objects, which this model leaves to `metrics.retries`. -/
def attemptOutcome (url : String) (opts : RequestOptionsM) (env : FetchEnv)
    (retry : Nat) : Except JsErr ApiResponse :=
  let currentUrl := endpointFor url opts.fallbackEndpoints retry
  let elapsed := env.elapsedAt retry
  match env.fetchAt retry with
  | .timesOutRaw =>
      .error (.apiTimeoutError (timeoutMessage
        ("API request (attempt " ++ toString (retry + 1) ++ "/" ++
          toString (opts.retries + 1) ++ ")") opts.timeout))
  | .aborted =>
      .ok (failureResponse "Request was aborted" (some "ABORTED") none none
        elapsed retry currentUrl)
  | .networkFailure msg =>
      .ok (failureResponse "Network error: Unable to connect to the server"
        (some "NETWORK_ERROR") none (some (.str msg)) elapsed retry currentUrl)
  | .jsThrow msg =>
      .ok (failureResponse msg (some "UNKNOWN_ERROR") none none
        elapsed retry currentUrl)
  | .httpResponse resp =>
      if opts.validateStatus resp.status then
        if ctIncludesJson resp.contentType then
          match resp.jsonBody with
          | .ok j => .ok (successResponse j elapsed retry currentUrl)
          | .error parseMsg =>
              .ok (failureResponse parseMsg (some "UNKNOWN_ERROR") none none
                elapsed retry currentUrl)
        else if resp.status = 204 then
          .ok (successResponse (Json.obj []) elapsed retry currentUrl)
        else
          match resp.textBody with
          | .ok t => .ok (successResponse (Json.str t) elapsed retry currentUrl)
          | .error readMsg =>
              .ok (failureResponse readMsg (some "UNKNOWN_ERROR") none none
                elapsed retry currentUrl)
      else
        .ok (failureResponse (responseErrorParts resp).1 none (some resp.status)
          (responseErrorParts resp).2 elapsed retry currentUrl)

/-- `fetchWithRetry(url, options, requestOptions)` (`api-utils.ts`
lines 191-366): the retry engine run over the attempt function above.
An `Except.error` outcome is a rejection of the returned promise — the
`throw lastError` of `withRetry` is not caught anywhere in
`fetchWithRetry`. -/
def fetchWithRetry (url : String) (opts : RequestOptionsM) (env : FetchEnv)
    (jitter : Nat → ℚ) : RetryResult ApiResponse :=
  withRetry (attemptOutcome url opts env) opts.retries opts.retryDelay jitter

/-- `===` comparison of `details?.detail` with the sentinel string. -/
def detailIsNoChute : Option Json → Bool
  | some (.str s) => s = "No matching chute found!"
  | _ => false

/-- How the client's `makeRequest` helper settles: resolves with data,
throws a classified `Error`, or passes a rejection of `fetchWithRetry`
straight through (nothing in `makeRequest` catches it). -/
inductive MakeRequestOutcome where
  | ok (data : Json)
  | thrown (message : String)
  | rejected (e : JsErr)

/-- The response handling of `ChutesClient.makeRequest` (client module
lines 229-252) applied to a settled `ApiResponse`: a 404 whose decoded
body has `detail === "No matching chute found!"` on the `/chutes`
endpoint resolves with an empty array; 401/403 throw an authentication
error; every other failure throws `Chutes API error: <message>`. -/
def makeRequestHandle (endpoint : String) (response : ApiResponse) :
    Except String Json :=
  if response.success then .ok (response.data.getD Json.null)
  else
    let status := response.error.bind (fun e => e.status)
    let errorMessage :=
      match response.error with
      | some e => if e.message = "" then "Unknown API error" else e.message
      | none => "Unknown API error"
    if status = some 404 ∧
        detailIsNoChute ((response.error.bind (fun e => e.details)).bind
          (fun d => jsGet d "detail")) ∧
        endpoint = "/chutes" then
      .ok (Json.arr [])
    else if status = some 401 ∨ status = some 403 then
      .error ("Authentication error: " ++ errorMessage ++
        " - Please check your API key")
    else .error ("Chutes API error: " ++ errorMessage)

/-- `ChutesClient.makeRequest(endpoint, …)` end to end: fetch
`baseUrl + endpoint` through `fetchWithRetry`, then classify the settled
response; a rejection of `fetchWithRetry` propagates unchanged. -/
def makeRequest (baseUrl endpoint : String) (opts : RequestOptionsM)
    (env : FetchEnv) (jitter : Nat → ℚ) : MakeRequestOutcome :=
  match (fetchWithRetry (baseUrl ++ endpoint) opts env jitter).outcome with
  | .error e => .rejected e
  | .ok response =>
      match makeRequestHandle endpoint response with
      | .ok d => .ok d
      | .error m => .thrown m

/-- The default `validateStatus` of `DEFAULT_REQUEST_OPTIONS`. -/
def defaultValidateStatus (status : Nat) : Bool :=
  decide (200 ≤ status ∧ status < 300)

theorem withRetryGo_nil {α : Type} (fn : Nat → Except JsErr α)
    (retryDelay : ℚ) (jitter : Nat → ℚ) :
    withRetryGo fn retryDelay jitter [] =
      { outcome := .error (.otherError "unreachable: no attempt allowed")
        attempts := 0, delays := [] } := rfl

theorem withRetryGo_cons_ok {α : Type} (fn : Nat → Except JsErr α)
    (retryDelay : ℚ) (jitter : Nat → ℚ) (i : Nat) (rest : List Nat) (v : α)
    (hfn : fn i = .ok v) :
    withRetryGo fn retryDelay jitter (i :: rest) =
      { outcome := .ok v, attempts := 1, delays := [] } := by
  rw [withRetryGo.eq_def]; simp [hfn]

theorem withRetryGo_last_err {α : Type} (fn : Nat → Except JsErr α)
    (retryDelay : ℚ) (jitter : Nat → ℚ) (i : Nat) (e : JsErr)
    (hfn : fn i = .error e) :
    withRetryGo fn retryDelay jitter [i] =
      { outcome := .error e, attempts := 1, delays := [] } := by
  rw [withRetryGo.eq_def]; simp [hfn]

theorem withRetryGo_cons_err_stop {α : Type} (fn : Nat → Except JsErr α)
    (retryDelay : ℚ) (jitter : Nat → ℚ) (i j : Nat) (rest : List Nat)
    (e : JsErr) (hfn : fn i = .error e) (hnr : isNonRetryable e = true) :
    withRetryGo fn retryDelay jitter (i :: j :: rest) =
      { outcome := .error e, attempts := 1, delays := [] } := by
  rw [withRetryGo.eq_def]; simp [hfn, hnr]

theorem withRetryGo_cons_err_retry {α : Type} (fn : Nat → Except JsErr α)
    (retryDelay : ℚ) (jitter : Nat → ℚ) (i j : Nat) (rest : List Nat)
    (e : JsErr) (hfn : fn i = .error e) (hnr : isNonRetryable e = false) :
    withRetryGo fn retryDelay jitter (i :: j :: rest) =
      { outcome := (withRetryGo fn retryDelay jitter (j :: rest)).outcome
        attempts := (withRetryGo fn retryDelay jitter (j :: rest)).attempts + 1
        delays := backoffDelay retryDelay jitter i ::
          (withRetryGo fn retryDelay jitter (j :: rest)).delays } := by
  rw [withRetryGo.eq_def]; simp [hfn, hnr]

theorem withRetryGo_attempts_le {α : Type} (fn : Nat → Except JsErr α)
    (retryDelay : ℚ) (jitter : Nat → ℚ) (l : List Nat) :
    (withRetryGo fn retryDelay jitter l).attempts ≤ l.length := by
  induction l with
  | nil => simp [withRetryGo_nil]
  | cons i rest ih =>
    cases hfn : fn i with
    | ok v => simp [withRetryGo_cons_ok fn retryDelay jitter i rest v hfn]
    | error e =>
      cases rest with
      | nil => simp [withRetryGo_last_err fn retryDelay jitter i e hfn]
      | cons j rest' =>
        by_cases hnr : isNonRetryable e
        · simp [withRetryGo_cons_err_stop fn retryDelay jitter i j rest' e hfn hnr]
        · rw [withRetryGo_cons_err_retry fn retryDelay jitter i j rest' e hfn
            (by simpa using hnr)]
          simp only [List.length_cons] at ih ⊢
          omega

theorem withRetryGo_attempts_pos {α : Type} (fn : Nat → Except JsErr α)
    (retryDelay : ℚ) (jitter : Nat → ℚ) (l : List Nat) (hl : l ≠ []) :
    1 ≤ (withRetryGo fn retryDelay jitter l).attempts := by
  cases l with
  | nil => exact absurd rfl hl
  | cons i rest =>
    cases hfn : fn i with
    | ok v => simp [withRetryGo_cons_ok fn retryDelay jitter i rest v hfn]
    | error e =>
      cases rest with
      | nil => simp [withRetryGo_last_err fn retryDelay jitter i e hfn]
      | cons j rest' =>
        by_cases hnr : isNonRetryable e
        · simp [withRetryGo_cons_err_stop fn retryDelay jitter i j rest' e hfn hnr]
        · rw [withRetryGo_cons_err_retry fn retryDelay jitter i j rest' e hfn
            (by simpa using hnr)]
          show 1 ≤ (withRetryGo fn retryDelay jitter (j :: rest')).attempts + 1
          omega

theorem withRetryGo_ok_mem {α : Type} (fn : Nat → Except JsErr α)
    (retryDelay : ℚ) (jitter : Nat → ℚ) (l : List Nat) (v : α)
    (h : (withRetryGo fn retryDelay jitter l).outcome = .ok v) :
    ∃ i ∈ l, fn i = .ok v := by
  induction l with
  | nil => simp [withRetryGo_nil] at h
  | cons i rest ih =>
    cases hfn : fn i with
    | ok w =>
      rw [withRetryGo_cons_ok fn retryDelay jitter i rest w hfn] at h
      simp only [Except.ok.injEq] at h
      exact ⟨i, by simp, by rw [hfn, h]⟩
    | error e =>
      cases rest with
      | nil => simp [withRetryGo_last_err fn retryDelay jitter i e hfn] at h
      | cons j rest' =>
        by_cases hnr : isNonRetryable e
        · simp [withRetryGo_cons_err_stop fn retryDelay jitter i j rest' e hfn hnr] at h
        · rw [withRetryGo_cons_err_retry fn retryDelay jitter i j rest' e hfn
            (by simpa using hnr)] at h
          obtain ⟨m, hm, hfm⟩ := ih h
          exact ⟨m, by simp [List.mem_cons] at hm ⊢; tauto, hfm⟩

theorem withRetryGo_err_mem {α : Type} (fn : Nat → Except JsErr α)
    (retryDelay : ℚ) (jitter : Nat → ℚ) (l : List Nat) (hl : l ≠ [])
    (e : JsErr)
    (h : (withRetryGo fn retryDelay jitter l).outcome = .error e) :
    ∃ i ∈ l, fn i = .error e := by
  induction l with
  | nil => exact absurd rfl hl
  | cons i rest ih =>
    cases hfn : fn i with
    | ok w => simp [withRetryGo_cons_ok fn retryDelay jitter i rest w hfn] at h
    | error e0 =>
      cases rest with
      | nil =>
        rw [withRetryGo_last_err fn retryDelay jitter i e0 hfn] at h
        simp only [Except.error.injEq] at h
        exact ⟨i, by simp, by rw [hfn, h]⟩
      | cons j rest' =>
        by_cases hnr : isNonRetryable e0
        · rw [withRetryGo_cons_err_stop fn retryDelay jitter i j rest' e0 hfn hnr] at h
          simp only [Except.error.injEq] at h
          exact ⟨i, by simp, by rw [hfn, h]⟩
        · rw [withRetryGo_cons_err_retry fn retryDelay jitter i j rest' e0 hfn
            (by simpa using hnr)] at h
          obtain ⟨m, hm, hfm⟩ := ih (by simp) h
          exact ⟨m, by simp [List.mem_cons] at hm ⊢; tauto, hfm⟩

theorem withRetryGo_err_all {α : Type} (fn : Nat → Except JsErr α)
    (retryDelay : ℚ) (jitter : Nat → ℚ)
    (hretryable : ∀ i e, fn i = .error e → isNonRetryable e = false)
    (l : List Nat) (e : JsErr)
    (h : (withRetryGo fn retryDelay jitter l).outcome = .error e) :
    ∀ i ∈ l, ∃ e', fn i = .error e' := by
  induction l with
  | nil => intro i hi; simp at hi
  | cons i rest ih =>
    intro j hj
    cases hfn : fn i with
    | ok w => simp [withRetryGo_cons_ok fn retryDelay jitter i rest w hfn] at h
    | error e0 =>
      rcases List.mem_cons.mp hj with rfl | hj'
      · exact ⟨e0, hfn⟩
      · cases rest with
        | nil => simp at hj'
        | cons k rest' =>
          have hnr : isNonRetryable e0 = false := hretryable i e0 hfn
          rw [withRetryGo_cons_err_retry fn retryDelay jitter i k rest' e0 hfn hnr] at h
          exact ih h j hj'

theorem withRetryGo_delays_get {α : Type} (fn : Nat → Except JsErr α)
    (retryDelay : ℚ) (jitter : Nat → ℚ) (l : List Nat) :
    ∀ (k : Nat) (d : ℚ),
      (withRetryGo fn retryDelay jitter l).delays[k]? = some d →
      ∃ m, l[k]? = some m ∧ d = backoffDelay retryDelay jitter m := by
  induction l with
  | nil => intro k d h; simp [withRetryGo_nil] at h
  | cons i rest ih =>
    intro k d h
    cases hfn : fn i with
    | ok w => simp [withRetryGo_cons_ok fn retryDelay jitter i rest w hfn] at h
    | error e =>
      cases rest with
      | nil => simp [withRetryGo_last_err fn retryDelay jitter i e hfn] at h
      | cons j rest' =>
        by_cases hnr : isNonRetryable e
        · simp [withRetryGo_cons_err_stop fn retryDelay jitter i j rest' e hfn hnr] at h
        · rw [withRetryGo_cons_err_retry fn retryDelay jitter i j rest' e hfn
            (by simpa using hnr)] at h
          cases k with
          | zero =>
            simp only [List.getElem?_cons_zero, Option.some.injEq] at h
            exact ⟨i, by simp, h.symm⟩
          | succ k' =>
            simp only [List.getElem?_cons_succ] at h
            obtain ⟨m, hm, hd⟩ := ih k' d h
            exact ⟨m, by simpa using hm, hd⟩

/-- C3: for every attempt function and every `maxRetries ≥ 0`, `withRetry`
invokes the attempt function at most `maxRetries + 1` times before
resolving or rethrowing, regardless of which attempts fail. -/
theorem chutes_c3_attempt_cap {α : Type} (fn : Nat → Except JsErr α)
    (maxRetries : Nat) (retryDelay : ℚ) (jitter : Nat → ℚ) :
    (withRetry fn maxRetries retryDelay jitter).attempts ≤ maxRetries + 1 := by
  have h := withRetryGo_attempts_le fn retryDelay jitter
    (List.range' 0 (maxRetries + 1))
  simpa [withRetry, List.length_range'] using h

/-- C4: in `fetchWithRetry` with primary URL `a` and fallback endpoints
`[b, c]`, the endpoint targeted by attempt `i` is the `(i % 3)`-th entry
of `[a, b, c]` (so attempt 0 targets `a` and the rotation is
`a, b, c, a, b, …`); with an empty fallback list every attempt targets
`a`. -/
theorem chutes_c4_fallback_rotation (a b c : String) (i : Nat) :
    endpointFor a [b, c] i = [a, b, c].getD (i % 3) a ∧
    endpointFor a [] i = a := by
  constructor
  · rcases Nat.eq_zero_or_pos i with h | h
    · subst h; simp [endpointFor]
    · simp [endpointFor, h]
  · simp [endpointFor]

/-- C6: an attempt failing with an `ApiResponseError` whose status lies in
`[400, 500)` and is neither 408 nor 429 makes `withRetry` rethrow that
error after exactly 1 attempt, with no further attempts and no backoff
wait; a failure with status 408, 429 or 5xx is retried (a second attempt
runs) whenever the cap allows it. -/
theorem chutes_c6_client_errors_not_retried {α : Type}
    (fn : Nat → Except JsErr α) (maxRetries : Nat) (retryDelay : ℚ)
    (jitter : Nat → ℚ) (m ep : String) (body : Option Json) (s : Nat)
    (h400 : 400 ≤ s) (h500 : s < 500) (h408 : s ≠ 408) (h429 : s ≠ 429)
    (hfn : fn 0 = .error (.apiResponseError m (some s) ep body)) :
    withRetry fn maxRetries retryDelay jitter =
      { outcome := .error (.apiResponseError m (some s) ep body)
        attempts := 1, delays := [] } ∧
    ∀ (s' : Nat) (m' ep' : String) (body' : Option Json)
      (fn' : Nat → Except JsErr α),
      (s' = 408 ∨ s' = 429 ∨ 500 ≤ s') →
      fn' 0 = .error (.apiResponseError m' (some s') ep' body') →
      1 ≤ maxRetries →
      2 ≤ (withRetry fn' maxRetries retryDelay jitter).attempts := by
  constructor
  · have hnr : isNonRetryable (.apiResponseError m (some s) ep body) = true := by
      simp only [isNonRetryable, decide_eq_true_eq]
      exact ⟨h400, h500, h408, h429⟩
    cases maxRetries with
    | zero =>
      rw [withRetry, show List.range' 0 1 = [0] from rfl]
      exact withRetryGo_last_err fn retryDelay jitter 0 _ hfn
    | succ k =>
      rw [withRetry, List.range'_succ, List.range'_succ]
      exact withRetryGo_cons_err_stop fn retryDelay jitter 0 1 _ _ hfn hnr
  · intro s' m' ep' body' fn' hs hfn' hmr
    obtain ⟨k, rfl⟩ : ∃ k, maxRetries = k + 1 :=
      ⟨maxRetries - 1, by omega⟩
    have hnr : isNonRetryable (.apiResponseError m' (some s') ep' body') = false := by
      simp only [isNonRetryable, decide_eq_false_iff_not]
      omega
    rw [withRetry, List.range'_succ, List.range'_succ,
      withRetryGo_cons_err_retry fn' retryDelay jitter 0 1 _ _ hfn' hnr]
    have hpos := withRetryGo_attempts_pos fn' retryDelay jitter
      (1 :: List.range' 2 k) (by simp)
    show 2 ≤ (withRetryGo fn' retryDelay jitter (1 :: List.range' 2 k)).attempts + 1
    omega

/-- C6 witness: a 400 response error is thrown after a single attempt
(with no delay), while a 503 response error gets a second attempt. -/
theorem chutes_c6_witness :
    withRetry
        (fun _ => (Except.error (.apiResponseError "Bad Request" (some 400)
          "https://api.chutes.ai/chutes" none) : Except JsErr Nat))
        3 1000 (fun _ => 1/2) =
      { outcome := .error (.apiResponseError "Bad Request" (some 400)
          "https://api.chutes.ai/chutes" none)
        attempts := 1, delays := [] } ∧
    2 ≤ (withRetry
        (fun _ => (Except.error (.apiResponseError "Service Unavailable"
          (some 503) "https://api.chutes.ai/chutes" none) : Except JsErr Nat))
        3 1000 (fun _ => 1/2)).attempts := by
  have h := chutes_c6_client_errors_not_retried
    (fun _ => (Except.error (.apiResponseError "Bad Request" (some 400)
      "https://api.chutes.ai/chutes" none) : Except JsErr Nat))
    3 1000 (fun _ => 1/2) "Bad Request" "https://api.chutes.ai/chutes" none 400
    (by decide) (by decide) (by decide) (by decide) rfl
  exact ⟨h.1, h.2 503 "Service Unavailable" "https://api.chutes.ai/chutes" none
    (fun _ => Except.error (.apiResponseError "Service Unavailable" (some 503)
      "https://api.chutes.ai/chutes" none))
    (by omega) rfl (by omega)⟩

/-- C5: for every `n ≥ 1`, whatever the attempt function does, the
backoff delay `withRetry` waits between failed attempt `n - 1` and
attempt `n` (entry `n - 1` of the recorded delays) equals
`retryBaseDelayMs * 2^(n-1) * (0.8 + random * 0.4)` for that wait's
jitter draw, and with every draw in `[0, 1)` it lies in
`[retryBaseDelayMs * 2^(n-1) * 0.8, retryBaseDelayMs * 2^(n-1) * 1.2]`. -/
theorem chutes_c5_backoff_bounds {α : Type} (fn : Nat → Except JsErr α)
    (maxRetries : Nat) (retryDelay : ℚ) (jitter : Nat → ℚ) (n : Nat) (d : ℚ)
    (_hn : 1 ≤ n) (hbase : 0 < retryDelay)
    (hjit : ∀ m, 0 ≤ jitter m ∧ jitter m < 1)
    (hd : (withRetry fn maxRetries retryDelay jitter).delays[n - 1]? = some d) :
    d = retryDelay * 2 ^ (n - 1) * (4/5 + jitter (n - 1) * (2/5)) ∧
    retryDelay * 2 ^ (n - 1) * (4/5) ≤ d ∧
    d ≤ retryDelay * 2 ^ (n - 1) * (6/5) := by
  rw [withRetry] at hd
  obtain ⟨m, hm, hdf⟩ := withRetryGo_delays_get fn retryDelay jitter _ _ _ hd
  have hlt : n - 1 < maxRetries + 1 := by
    by_contra hge
    have hnone : (List.range' 0 (maxRetries + 1))[n - 1]? = none := by
      rw [List.getElem?_eq_none]
      rw [List.length_range']
      omega
    rw [hnone] at hm
    exact Option.noConfusion hm
  have hval : (List.range' 0 (maxRetries + 1))[n - 1]? = some (0 + (n - 1)) := by
    simp [List.getElem?_range', hlt]
  rw [hval] at hm
  have hm' : m = n - 1 := by
    simp only [Option.some.injEq] at hm
    omega
  subst hm'
  simp only [backoffDelay] at hdf
  obtain ⟨hj0, hj1⟩ := hjit (n - 1)
  have hc : (0 : ℚ) < retryDelay * 2 ^ (n - 1) := by positivity
  refine ⟨hdf, ?_, ?_⟩
  · rw [hdf]
    nlinarith [mul_nonneg hj0 (show (0:ℚ) ≤ 2/5 by norm_num)]
  · rw [hdf]
    nlinarith [mul_nonneg hj0 (show (0:ℚ) ≤ 2/5 by norm_num)]

/-- C5 witness: with `retryBaseDelayMs = 1000`, a jitter draw of `1/2`
and a first attempt failing with a timeout, the recorded delay before
attempt 1 is exactly `1000 * 2^0 * (0.8 + 0.5 * 0.4) = 1000` and lies in
the stated interval. -/
theorem chutes_c5_witness :
    (1000 : ℚ) = 1000 * 2 ^ (1 - 1 : Nat) * (4/5 + (1/2 : ℚ) * (2/5)) ∧
    (1000 : ℚ) * 2 ^ (1 - 1 : Nat) * (4/5) ≤ 1000 ∧
    (1000 : ℚ) ≤ 1000 * 2 ^ (1 - 1 : Nat) * (6/5) := by
  have hd : (withRetry (α := Nat) (fun _ => .error (.apiTimeoutError "t"))
      1 1000 (fun _ => 1/2)).delays[1 - 1]? = some 1000 := by
    rw [withRetry, show List.range' 0 (1 + 1) = [0, 1] from rfl,
      withRetryGo_cons_err_retry (fun _ => .error (.apiTimeoutError "t"))
        1000 (fun _ => 1/2) 0 1 [] (.apiTimeoutError "t") rfl rfl,
      withRetryGo_last_err (fun _ => .error (.apiTimeoutError "t"))
        1000 (fun _ => 1/2) 1 (.apiTimeoutError "t") rfl]
    norm_num [backoffDelay]
  have h := chutes_c5_backoff_bounds (α := Nat)
    (fun _ => .error (.apiTimeoutError "t")) 1 1000 (fun _ => 1/2) 1 1000
    (by omega) (by norm_num) (fun m => ⟨by norm_num, by norm_num⟩) hd
  simpa using h

theorem attemptOutcome_settles (url : String) (opts : RequestOptionsM)
    {env : FetchEnv} {retry : Nat}
    (hf : env.fetchAt retry ≠ .timesOutRaw) :
    ∃ r, attemptOutcome url opts env retry = .ok r := by
  cases hfa : env.fetchAt retry with
  | timesOutRaw => exact absurd hfa hf
  | aborted =>
    exact ⟨failureResponse "Request was aborted" (some "ABORTED") none none
      (env.elapsedAt retry) retry (endpointFor url opts.fallbackEndpoints retry),
      by simp [attemptOutcome, hfa]⟩
  | networkFailure msg =>
    exact ⟨failureResponse "Network error: Unable to connect to the server"
      (some "NETWORK_ERROR") none (some (.str msg)) (env.elapsedAt retry) retry
      (endpointFor url opts.fallbackEndpoints retry),
      by simp [attemptOutcome, hfa]⟩
  | jsThrow msg =>
    exact ⟨failureResponse msg (some "UNKNOWN_ERROR") none none
      (env.elapsedAt retry) retry (endpointFor url opts.fallbackEndpoints retry),
      by simp [attemptOutcome, hfa]⟩
  | httpResponse resp =>
    simp only [attemptOutcome, hfa]
    repeat' split
    all_goals exact ⟨_, rfl⟩

theorem attemptOutcome_err {url : String} {opts : RequestOptionsM}
    {env : FetchEnv} {retry : Nat} {e : JsErr}
    (h : attemptOutcome url opts env retry = .error e) :
    env.fetchAt retry = .timesOutRaw ∧
    e = .apiTimeoutError (timeoutMessage
      ("API request (attempt " ++ toString (retry + 1) ++ "/" ++
        toString (opts.retries + 1) ++ ")") opts.timeout) := by
  by_cases hf : env.fetchAt retry = .timesOutRaw
  · refine ⟨hf, ?_⟩
    simp only [attemptOutcome, hf] at h
    simp only [Except.error.injEq] at h
    exact h.symm
  · obtain ⟨r, hr⟩ := attemptOutcome_settles url opts hf
    rw [hr] at h
    exact absurd h (by simp)

theorem attemptOutcome_ok_shape {url : String} {opts : RequestOptionsM}
    {env : FetchEnv} {retry : Nat} {r : ApiResponse}
    (h : attemptOutcome url opts env retry = .ok r) :
    r.metrics.isSome = true ∧
    (r.success = true → r.data.isSome = true ∧ r.error = none) ∧
    (r.success = false → r.error.isSome = true ∧ r.data = none) := by
  have hshape : (∃ d e' rt ep, r = successResponse d e' rt ep) ∨
      (∃ m c s dd e' rt ep, r = failureResponse m c s dd e' rt ep) := by
    cases hfa : env.fetchAt retry <;> simp only [attemptOutcome, hfa] at h
    · exact absurd h (by simp)
    · exact .inr ⟨_, _, _, _, _, _, _, (Except.ok.inj h).symm⟩
    · exact .inr ⟨_, _, _, _, _, _, _, (Except.ok.inj h).symm⟩
    · exact .inr ⟨_, _, _, _, _, _, _, (Except.ok.inj h).symm⟩
    · repeat' split at h
      all_goals first
        | exact .inl ⟨_, _, _, _, (Except.ok.inj h).symm⟩
        | exact .inr ⟨_, _, _, _, _, _, _, (Except.ok.inj h).symm⟩
  rcases hshape with ⟨d, e', rt, ep, rfl⟩ | ⟨m, c, s, dd, e', rt, ep, rfl⟩ <;>
    simp [successResponse, failureResponse]

theorem fetchWithRetry_first_ok {url : String} {opts : RequestOptionsM}
    {env : FetchEnv} {jitter : Nat → ℚ} {r : ApiResponse}
    (h : attemptOutcome url opts env 0 = .ok r) :
    (fetchWithRetry url opts env jitter).outcome = .ok r ∧
    (fetchWithRetry url opts env jitter).attempts = 1 := by
  rw [fetchWithRetry, withRetry, List.range'_succ,
    withRetryGo_cons_ok (attemptOutcome url opts env) opts.retryDelay jitter
      0 _ r h]
  exact ⟨rfl, rfl⟩

/-- C1 (amended): `fetchWithRetry` resolves to a structured `ApiResponse`
with `metrics` populated and exactly one of `data`/`error` set whenever
some attempt settles; but when every attempt up to the cap is a raw
timeout, the promise rejects, propagating the last `ApiTimeoutError` of
the retry engine to the caller (only timeout rejections can surface —
the outcome is `Except.error` only if all attempts were raw timeouts). -/
theorem chutes_c1_structured_result (url : String) (opts : RequestOptionsM)
    (env : FetchEnv) (jitter : Nat → ℚ) :
    (∀ r, (fetchWithRetry url opts env jitter).outcome = .ok r →
        r.metrics.isSome = true ∧
        (r.success = true → r.data.isSome = true ∧ r.error = none) ∧
        (r.success = false → r.error.isSome = true ∧ r.data = none)) ∧
    (∀ e, (fetchWithRetry url opts env jitter).outcome = .error e →
        (∃ msg, e = JsErr.apiTimeoutError msg) ∧
        ∀ i, i ≤ opts.retries → env.fetchAt i = FetchOut.timesOutRaw) := by
  constructor
  · intro r h
    rw [fetchWithRetry, withRetry] at h
    obtain ⟨i, _, hfi⟩ := withRetryGo_ok_mem _ _ _ _ _ h
    exact attemptOutcome_ok_shape hfi
  · intro e h
    rw [fetchWithRetry, withRetry] at h
    have hretryable : ∀ i e', attemptOutcome url opts env i = .error e' →
        isNonRetryable e' = false := by
      intro i e' he'
      obtain ⟨_, he⟩ := attemptOutcome_err he'
      rw [he]
      rfl
    refine ⟨?_, ?_⟩
    · obtain ⟨i, _, hfi⟩ := withRetryGo_err_mem _ _ _ _
        (by rw [List.range'_succ]; simp) e h
      obtain ⟨_, he⟩ := attemptOutcome_err hfi
      exact ⟨_, he⟩
    · intro i hi
      have hmem : i ∈ List.range' 0 (opts.retries + 1) := by
        rw [List.mem_range'_1]
        omega
      obtain ⟨e', hfe'⟩ := withRetryGo_err_all _ _ _ hretryable _ e h i hmem
      exact (attemptOutcome_err hfe').1

/-- C1 counterexample: with `retries := 1` and both attempts raw
timeouts, `fetchWithRetry` does not resolve with a structured
`ApiResponse` — it rejects with the final attempt's raw
`ApiTimeoutError` (`withRetry`'s `throw lastError` is uncaught). -/
theorem chutes_c1_counterexample :
    (fetchWithRetry "https://api.chutes.ai/chutes"
        { timeout := 10000, retries := 1, retryDelay := 1000
          fallbackEndpoints := [], validateStatus := defaultValidateStatus }
        { fetchAt := fun _ => .timesOutRaw, elapsedAt := fun _ => 10000 }
        (fun _ => 1/2)).outcome =
      .error (.apiTimeoutError
        "Operation \"API request (attempt 2/2)\" timed out after 10000ms") := by
  rfl

/-- C1 witness: a run whose first attempt settles with an HTTP 200 JSON
response resolves with a structured success carrying metrics and only
the `data` variant. -/
theorem chutes_c1_witness :
    (successResponse (Json.obj []) 3 0 "https://api.chutes.ai/users/me").metrics.isSome = true ∧
    ((successResponse (Json.obj []) 3 0 "https://api.chutes.ai/users/me").success = true →
      (successResponse (Json.obj []) 3 0 "https://api.chutes.ai/users/me").data.isSome = true ∧
      (successResponse (Json.obj []) 3 0 "https://api.chutes.ai/users/me").error = none) ∧
    ((successResponse (Json.obj []) 3 0 "https://api.chutes.ai/users/me").success = false →
      (successResponse (Json.obj []) 3 0 "https://api.chutes.ai/users/me").error.isSome = true ∧
      (successResponse (Json.obj []) 3 0 "https://api.chutes.ai/users/me").data = none) := by
  have h0 : attemptOutcome "https://api.chutes.ai/users/me"
      { timeout := 10000, retries := 0, retryDelay := 1000
        fallbackEndpoints := [], validateStatus := defaultValidateStatus }
      { fetchAt := fun _ => .httpResponse
          { status := 200, statusText := "OK"
            contentType := some "application/json"
            jsonBody := .ok (Json.obj []), textBody := .ok "" }
        elapsedAt := fun _ => 3 } 0 =
      .ok (successResponse (Json.obj []) 3 0 "https://api.chutes.ai/users/me") := by
    rfl
  exact (chutes_c1_structured_result "https://api.chutes.ai/users/me"
    { timeout := 10000, retries := 0, retryDelay := 1000
      fallbackEndpoints := [], validateStatus := defaultValidateStatus }
    { fetchAt := fun _ => .httpResponse
        { status := 200, statusText := "OK"
          contentType := some "application/json"
          jsonBody := .ok (Json.obj []), textBody := .ok "" }
      elapsedAt := fun _ => 3 }
    (fun _ => 1/2)).1
    (successResponse (Json.obj []) 3 0 "https://api.chutes.ai/users/me")
    (fetchWithRetry_first_ok h0).1

/-- C2 (code evaluation at the failing input): with `retries := 3` and
every attempt answering HTTP 503, `fetchWithRetry` performs exactly 1
attempt — not `maxRetries + 1 = 4` — because the attempt's own catch
converts the `ApiResponseError` into a resolved failure `ApiResponse`
(carrying status 503) before the retry engine can observe it. -/
theorem chutes_c2_code_eval :
    (fetchWithRetry "https://api.chutes.ai/chutes"
        { timeout := 10000, retries := 3, retryDelay := 1000
          fallbackEndpoints := [], validateStatus := defaultValidateStatus }
        { fetchAt := fun _ => .httpResponse
            { status := 503, statusText := "Service Unavailable"
              contentType := none, jsonBody := .error "invalid json"
              textBody := .ok "Service Unavailable" }
          elapsedAt := fun _ => 7 }
        (fun _ => 1/2)).attempts = 1 ∧
    (1 : Nat) ≠ 3 + 1 ∧
    (fetchWithRetry "https://api.chutes.ai/chutes"
        { timeout := 10000, retries := 3, retryDelay := 1000
          fallbackEndpoints := [], validateStatus := defaultValidateStatus }
        { fetchAt := fun _ => .httpResponse
            { status := 503, statusText := "Service Unavailable"
              contentType := none, jsonBody := .error "invalid json"
              textBody := .ok "Service Unavailable" }
          elapsedAt := fun _ => 7 }
        (fun _ => 1/2)).outcome =
      .ok (failureResponse "Service Unavailable" none (some 503) none 7 0
        "https://api.chutes.ai/chutes") := by
  exact ⟨rfl, by omega, rfl⟩

/-- C7 (amended): an operation that never settles yields the
`ApiTimeoutError` rejection exactly when `timeoutMs` elapses, and on that
path no timer is pending after settling; but when the operation finishes
first, only the abort timer (`timeoutId`) is cleared — the rejection
timer created inside the timeout promise is never cleared and its
callback is still pending after `withTimeout` settles. -/
theorem chutes_c7_timeout_and_timers {α : Type} (timeoutMs : Nat)
    (operationName : String) :
    ((withTimeout (α := α) none timeoutMs operationName).result =
        .error (.apiTimeoutError (timeoutMessage operationName timeoutMs)) ∧
      (withTimeout (α := α) none timeoutMs operationName).settledAt = timeoutMs ∧
      (withTimeout (α := α) none timeoutMs operationName).abortTimer.pendingAt
        (withTimeout (α := α) none timeoutMs operationName).settledAt = false ∧
      (withTimeout (α := α) none timeoutMs operationName).rejectTimer.pendingAt
        (withTimeout (α := α) none timeoutMs operationName).settledAt = false) ∧
    (∀ (t : Nat) (r : Except JsErr α), t < timeoutMs →
      (withTimeout (some (t, r)) timeoutMs operationName).result = r ∧
      (withTimeout (some (t, r)) timeoutMs operationName).abortTimer.clearedAt =
        some t ∧
      (withTimeout (some (t, r)) timeoutMs operationName).rejectTimer.clearedAt =
        none ∧
      (withTimeout (some (t, r)) timeoutMs operationName).rejectTimer.pendingAt
        (withTimeout (some (t, r)) timeoutMs operationName).settledAt = true) := by
  constructor
  · simp [withTimeout, TimerRec.pendingAt]
  · intro t r ht
    simp [withTimeout, ht, TimerRec.pendingAt]

/-- C7 counterexample: an operation settling at once against a 100ms
deadline makes `withTimeout` settle on the success path, yet the
rejection timer it created is still pending afterwards — so not every
timer created by `withTimeout` has been cleared when it settles. -/
theorem chutes_c7_counterexample :
    (withTimeout (some (0, Except.ok (42 : Nat))) 100 "API Request").result =
      .ok 42 ∧
    (withTimeout (some (0, Except.ok (42 : Nat))) 100
        "API Request").rejectTimer.pendingAt
      (withTimeout (some (0, Except.ok (42 : Nat))) 100
        "API Request").settledAt = true := by
  exact ⟨rfl, rfl⟩

/-- C7 witness: the amended statement at `timeoutMs = 100` with an
operation settling at `t = 5`. -/
theorem chutes_c7_witness :
    (withTimeout (some (5, Except.ok (7 : Nat))) 100 "op").result = .ok 7 ∧
    (withTimeout (some (5, Except.ok (7 : Nat))) 100 "op").abortTimer.clearedAt =
      some 5 ∧
    (withTimeout (some (5, Except.ok (7 : Nat))) 100 "op").rejectTimer.clearedAt =
      none ∧
    (withTimeout (some (5, Except.ok (7 : Nat))) 100 "op").rejectTimer.pendingAt
      (withTimeout (some (5, Except.ok (7 : Nat))) 100 "op").settledAt = true := by
  exact (chutes_c7_timeout_and_timers (α := Nat) 100 "op").2 5 (.ok 7) (by omega)

/-- C8: `validateResponseData` fails whenever the data is absent
(`null`) or not an object; with required keys `["id", "name"]` and data
`{"id": "x"}` it fails naming `"name"`, the first missing key in order;
with data `{"id": "x", "name": "y"}` and defaults `{"public": false}` it
returns the shallow merge with the defaults under the data; and a data
field always wins over a default of the same name. -/
theorem chutes_c8_validate :
    (∀ (data : Json) (requiredKeys : List String)
        (defaultValues : List (String × Json)), isObjectLike data = false →
        validateResponseData data requiredKeys defaultValues =
          .error "Invalid API response: expected an object") ∧
    (∀ defaultValues,
        validateResponseData (Json.obj [("id", .str "x")]) ["id", "name"]
          defaultValues =
        .error "Missing required field in API response: name") ∧
    validateResponseData (Json.obj [("id", .str "x"), ("name", .str "y")])
        ["id", "name"] [("public", .bool false)] =
      .ok (Json.obj [("public", .bool false), ("id", .str "x"),
        ("name", .str "y")]) ∧
    validateResponseData (Json.obj [("id", .str "x"), ("name", .str "y")])
        ["id"] [("name", .str "z"), ("public", .bool false)] =
      .ok (Json.obj [("name", .str "y"), ("public", .bool false),
        ("id", .str "x")]) := by
  refine ⟨?_, fun ds => rfl, rfl, rfl⟩
  intro data requiredKeys defaultValues hobj
  simp [validateResponseData, hobj]

/-- C8 witness: absent data (`null`) is rejected. -/
theorem chutes_c8_witness :
    validateResponseData Json.null ["id"] [] =
      .error "Invalid API response: expected an object" :=
  chutes_c8_validate.1 Json.null ["id"] [] rfl

/-- C10: the token bucket of `createRateLimiter` keeps
`0 ≤ tokens ≤ limit` across every sequence of `checkLimit` calls at any
times, and each call returns `true` and decrements the (refilled) count
exactly when a token is available after the time-based refill, returning
`false` and leaving the refilled count unchanged otherwise. -/
theorem chutes_c10_rate_limiter (limit timeWindow t0 : Int)
    (times : List Int) (hlimit : 0 ≤ limit) (hwindow : 0 < timeWindow) :
    (0 ≤ (rlRun limit timeWindow (createRateLimiter limit t0) times).tokens ∧
      (rlRun limit timeWindow (createRateLimiter limit t0) times).tokens ≤
        limit) ∧
    (∀ (s : RLState) (now : Int),
      ((checkLimit limit timeWindow s now).1 = true ↔
        0 < (rlRefill limit timeWindow s now).tokens) ∧
      ((checkLimit limit timeWindow s now).1 = true →
        (checkLimit limit timeWindow s now).2.tokens =
          (rlRefill limit timeWindow s now).tokens - 1) ∧
      ((checkLimit limit timeWindow s now).1 = false →
        (checkLimit limit timeWindow s now).2 =
          rlRefill limit timeWindow s now)) := by
  have hrefill : ∀ (s : RLState) (now : Int), 0 ≤ s.tokens → s.tokens ≤ limit →
      0 ≤ (rlRefill limit timeWindow s now).tokens ∧
      (rlRefill limit timeWindow s now).tokens ≤ limit := by
    intro s now h0 h1
    rw [rlRefill]
    split
    · have hq : 0 ≤ (now - s.lastRefill) / timeWindow :=
        Int.ediv_nonneg (by omega) (by omega)
      have hql : 0 ≤ (now - s.lastRefill) / timeWindow * limit :=
        mul_nonneg hq hlimit
      constructor
      · exact le_min hlimit (by omega)
      · exact min_le_left _ _
    · exact ⟨h0, h1⟩
  have hstep : ∀ (s : RLState) (now : Int), 0 ≤ s.tokens → s.tokens ≤ limit →
      0 ≤ (checkLimit limit timeWindow s now).2.tokens ∧
      (checkLimit limit timeWindow s now).2.tokens ≤ limit := by
    intro s now h0 h1
    obtain ⟨hr0, hr1⟩ := hrefill s now h0 h1
    rw [checkLimit]
    split
    · constructor
      · simp only []
        omega
      · simp only []
        omega
    · exact ⟨hr0, hr1⟩
  constructor
  · have hfold : ∀ (ts : List Int) (s : RLState), 0 ≤ s.tokens →
        s.tokens ≤ limit →
        0 ≤ (rlRun limit timeWindow s ts).tokens ∧
        (rlRun limit timeWindow s ts).tokens ≤ limit := by
      intro ts
      induction ts with
      | nil => intro s h0 h1; exact ⟨h0, h1⟩
      | cons t ts' ih =>
        intro s h0 h1
        obtain ⟨h0', h1'⟩ := hstep s t h0 h1
        exact ih _ h0' h1'
    exact hfold times (createRateLimiter limit t0) hlimit le_rfl
  · intro s now
    rw [checkLimit]
    split
    · refine ⟨⟨fun _ => by omega, fun _ => rfl⟩, fun _ => rfl, fun h => ?_⟩
      exact absurd h (by simp)
    · refine ⟨⟨fun h => absurd h (by simp), fun h => by omega⟩,
        fun h => absurd h (by simp), fun _ => rfl⟩

/-- C10 witness: a concrete run with `limit = 2`, `timeWindow = 10`,
creation at `t0 = 0` and four calls. -/
theorem chutes_c10_witness :
    (0 ≤ (rlRun 2 10 (createRateLimiter 2 0) [0, 1, 2, 25]).tokens ∧
      (rlRun 2 10 (createRateLimiter 2 0) [0, 1, 2, 25]).tokens ≤ 2) ∧
    (∀ (s : RLState) (now : Int),
      ((checkLimit 2 10 s now).1 = true ↔
        0 < (rlRefill 2 10 s now).tokens) ∧
      ((checkLimit 2 10 s now).1 = true →
        (checkLimit 2 10 s now).2.tokens = (rlRefill 2 10 s now).tokens - 1) ∧
      ((checkLimit 2 10 s now).1 = false →
        (checkLimit 2 10 s now).2 = rlRefill 2 10 s now)) :=
  chutes_c10_rate_limiter 2 10 0 [0, 1, 2, 25] (by omega) (by omega)

/-- C9: when the fetch answers HTTP 404 with a decoded body whose
`detail` field equals `"No matching chute found!"`, the client's
`makeRequest` helper resolves with an empty array (a success) on the
`/chutes` endpoint, while on any other endpoint the same response is
still surfaced as a thrown `Chutes API error`. -/
theorem chutes_c9_no_matching_chute (baseUrl : String)
    (opts : RequestOptionsM) (env : FetchEnv) (jitter : Nat → ℚ)
    (resp : HttpResp) (body : Json)
    (hfetch : env.fetchAt 0 = .httpResponse resp)
    (hstatus : resp.status = 404)
    (hvalid : opts.validateStatus 404 = false)
    (hjson : resp.jsonBody = .ok body)
    (hdetail : jsGet body "detail" = some (.str "No matching chute found!")) :
    makeRequest baseUrl "/chutes" opts env jitter = .ok (Json.arr []) ∧
    ∀ endpoint, endpoint ≠ "/chutes" →
      ∃ m, makeRequest baseUrl endpoint opts env jitter =
        .thrown ("Chutes API error: " ++ m) := by
  obtain ⟨fields, rfl⟩ : ∃ fields, body = Json.obj fields := by
    cases body with
    | obj fields => exact ⟨fields, rfl⟩
    | null =>
      rw [show jsGet Json.null "detail" = none from rfl] at hdetail
      exact Option.noConfusion hdetail
    | bool b =>
      rw [show jsGet (Json.bool b) "detail" = none from rfl] at hdetail
      exact Option.noConfusion hdetail
    | num q =>
      rw [show jsGet (Json.num q) "detail" = none from rfl] at hdetail
      exact Option.noConfusion hdetail
    | str s =>
      rw [show jsGet (Json.str s) "detail" = none from rfl] at hdetail
      exact Option.noConfusion hdetail
    | arr elems =>
      rw [show jsGet (Json.arr elems) "detail" = none from rfl] at hdetail
      exact Option.noConfusion hdetail
  have hparts2 : (responseErrorParts resp).2 = some (Json.obj fields) := by
    simp [responseErrorParts, hjson]
  have hatt : ∀ url : String, attemptOutcome url opts env 0 =
      .ok (failureResponse (responseErrorParts resp).1 none (some 404)
        (responseErrorParts resp).2 (env.elapsedAt 0) 0 url) := by
    intro url
    simp only [attemptOutcome, hfetch]
    rw [hstatus, hvalid]
    simp [endpointFor]
  have hout : ∀ ep : String,
      (fetchWithRetry (baseUrl ++ ep) opts env jitter).outcome =
        .ok (failureResponse (responseErrorParts resp).1 none (some 404)
          (responseErrorParts resp).2 (env.elapsedAt 0) 0 (baseUrl ++ ep)) :=
    fun ep => (fetchWithRetry_first_ok (hatt (baseUrl ++ ep))).1
  constructor
  · have hh : makeRequestHandle "/chutes"
        (failureResponse (responseErrorParts resp).1 none (some 404)
          (responseErrorParts resp).2 (env.elapsedAt 0) 0
          (baseUrl ++ "/chutes")) = .ok (Json.arr []) := by
      simp [makeRequestHandle, failureResponse, hparts2, hdetail, detailIsNoChute]
    simp only [makeRequest, hout "/chutes", hh]
  · intro ep hep
    refine ⟨(if (responseErrorParts resp).1 = "" then "Unknown API error"
      else (responseErrorParts resp).1), ?_⟩
    have hh : makeRequestHandle ep
        (failureResponse (responseErrorParts resp).1 none (some 404)
          (responseErrorParts resp).2 (env.elapsedAt 0) 0 (baseUrl ++ ep)) =
        .error ("Chutes API error: " ++
          (if (responseErrorParts resp).1 = "" then "Unknown API error"
            else (responseErrorParts resp).1)) := by
      simp [makeRequestHandle, failureResponse, hep]
    simp only [makeRequest, hout ep, hh]

/-- C9 witness: concrete 404 `"No matching chute found!"` responses on
`/chutes` and on `/images`. -/
theorem chutes_c9_witness :
    makeRequest "https://api.chutes.ai" "/chutes"
        { timeout := 10000, retries := 3, retryDelay := 1000
          fallbackEndpoints := [], validateStatus := defaultValidateStatus }
        { fetchAt := fun _ => .httpResponse
            { status := 404, statusText := "Not Found"
              contentType := some "application/json"
              jsonBody := .ok (Json.obj
                [("detail", .str "No matching chute found!")])
              textBody := .ok "" }
          elapsedAt := fun _ => 5 }
        (fun _ => 1/2) = .ok (Json.arr []) ∧
    ∃ m, makeRequest "https://api.chutes.ai" "/images"
        { timeout := 10000, retries := 3, retryDelay := 1000
          fallbackEndpoints := [], validateStatus := defaultValidateStatus }
        { fetchAt := fun _ => .httpResponse
            { status := 404, statusText := "Not Found"
              contentType := some "application/json"
              jsonBody := .ok (Json.obj
                [("detail", .str "No matching chute found!")])
              textBody := .ok "" }
          elapsedAt := fun _ => 5 }
        (fun _ => 1/2) = .thrown ("Chutes API error: " ++ m) := by
  have h := chutes_c9_no_matching_chute "https://api.chutes.ai"
    { timeout := 10000, retries := 3, retryDelay := 1000
      fallbackEndpoints := [], validateStatus := defaultValidateStatus }
    { fetchAt := fun _ => .httpResponse
        { status := 404, statusText := "Not Found"
          contentType := some "application/json"
          jsonBody := .ok (Json.obj [("detail", .str "No matching chute found!")])
          textBody := .ok "" }
      elapsedAt := fun _ => 5 }
    (fun _ => 1/2)
    { status := 404, statusText := "Not Found"
      contentType := some "application/json"
      jsonBody := .ok (Json.obj [("detail", .str "No matching chute found!")])
      textBody := .ok "" }
    (Json.obj [("detail", .str "No matching chute found!")])
    rfl rfl rfl rfl rfl
  exact ⟨h.1, h.2 "/images" (by decide)⟩

end Chutes
